import Mathlib

/-!
# Shallow embedding of `cc/algorithms/algorithm.h`

This file embeds, in Lean 4, the core of the differential-privacy library's
`Algorithm` base class and `AlgorithmBuilder` (file
`src/cc/algorithms/algorithm.h`), and proves properties of the embedding.

Modelling conventions:
* C++ `double` values that take part in arithmetic (privacy budget fractions,
  epsilon, delta) are modelled as rationals `ℚ`; the special IEEE values
  (infinities, NaN) are only needed by the builder's validation of epsilon and
  delta, where a dedicated type `Dbl` (a rational or a special value) is used.
* Mutation of the C++ object is explicit state passing: a method that mutates
  `this` and returns `StatusOr<V>` becomes a function
  `State → Except Err V × State` (the returned state is the object after the
  call; on the C++ early-return error paths the state is returned unchanged).
* `base::StatusOr` / `absl::Status` become `Except Err`, with `Err` carrying
  the absl status code and message of the source.
* The pure-virtual hooks of `Algorithm` (`GenerateResult`, `AddEntry`,
  `ResetState`) have no body in `algorithm.h`; the budget-accounting layer is
  embedded up to those hooks: `PartialResult` returns the argument pair that
  the base class passes to `GenerateResult`, and the entry/state hooks are
  function parameters.
-/

namespace differential_privacy

/-- Absl status errors as produced in `algorithm.h`: the status code and the
message (numbers rendered via `toString` in place of `absl::StrCat`). -/
inductive Err where
  | invalidArgument (msg : String)
  | unimplemented (msg : String)
deriving DecidableEq

deriving instance DecidableEq for Except

/-- C++ `std::max` on doubles, exactly as the C++ standard defines it:
`(a < b) ? b : a`. -/
def stdMax (a b : ℚ) : ℚ := if a < b then b else a

theorem stdMax_eq_max (a b : ℚ) : stdMax a b = max a b := by
  unfold stdMax
  rcases lt_or_ge a b with h | h
  · rw [if_pos h, max_eq_right h.le]
  · rw [if_neg (not_lt.mpr h), max_eq_left h]

/-- C++ `constexpr double kDefaultDelta = 0.0;` -/
def kDefaultDelta : ℚ := 0

/-- C++ `constexpr double kDefaultConfidenceLevel = .95;` -/
def kDefaultConfidenceLevel : ℚ := mkRat 95 100

/-- C++ `static constexpr double kFullPrivacyBudget = 1.0;` -/
def kFullPrivacyBudget : ℚ := 1

/-- The fields of `Algorithm<T>` other than the subtype's own state:
`epsilon_` and `delta_` are `const double`, and
`remaining_privacy_budget_fraction_` is the mutable budget fraction. -/
structure AlgorithmState where
  epsilon_ : ℚ
  delta_ : ℚ
  remaining_privacy_budget_fraction_ : ℚ
deriving DecidableEq

namespace AlgorithmState

/-- The two-argument constructor `Algorithm(double epsilon, double delta)`:
initialises `remaining_privacy_budget_fraction_` to `kFullPrivacyBudget`. -/
def mk2 (epsilon delta : ℚ) : AlgorithmState :=
  { epsilon_ := epsilon, delta_ := delta,
    remaining_privacy_budget_fraction_ := kFullPrivacyBudget }

/-- The one-argument constructor `Algorithm(double epsilon)`, which delegates
to `Algorithm(epsilon, 0)`. -/
def mk1 (epsilon : ℚ) : AlgorithmState := mk2 epsilon 0

/-- C++ `double RemainingPrivacyBudget()` -/
def RemainingPrivacyBudget (s : AlgorithmState) : ℚ :=
  s.remaining_privacy_budget_fraction_

/-- C++ `virtual double GetEpsilon() const` -/
def GetEpsilon (s : AlgorithmState) : ℚ := s.epsilon_

/-- C++ `virtual double GetDelta() const` -/
def GetDelta (s : AlgorithmState) : ℚ := s.delta_

/-- C++ `base::StatusOr<double> ConsumePrivacyBudget(double privacy_budget_fraction)`:
rejects a negative request, rejects a request above the remaining fraction,
otherwise floors the new remaining fraction at 0 and returns the difference
between the old and the new fraction. The second component is the object
state after the call. -/
def ConsumePrivacyBudget (s : AlgorithmState) (privacy_budget_fraction : ℚ) :
    Except Err ℚ × AlgorithmState :=
  if privacy_budget_fraction < 0 then
    (.error (.invalidArgument
      ("Budget fraction must be positive but is " ++
        toString privacy_budget_fraction)), s)
  else if s.remaining_privacy_budget_fraction_ < privacy_budget_fraction then
    (.error (.invalidArgument
      ("Requested budget fraction " ++ toString privacy_budget_fraction ++
        " exceeds remaining budget fraction of " ++
        toString s.remaining_privacy_budget_fraction_)), s)
  else
    let old_budget_fraction := s.remaining_privacy_budget_fraction_
    let new_fraction := stdMax 0 (old_budget_fraction - privacy_budget_fraction)
    let s' : AlgorithmState := { s with remaining_privacy_budget_fraction_ := new_fraction }
    (.ok (old_budget_fraction - s'.remaining_privacy_budget_fraction_), s')

/-- The budget effect of `void Reset()`: restores
`remaining_privacy_budget_fraction_` to `kFullPrivacyBudget` (the call to the
`ResetState()` hook touches only the subtype's own state). -/
def Reset (s : AlgorithmState) : AlgorithmState :=
  { s with remaining_privacy_budget_fraction_ := kFullPrivacyBudget }

end AlgorithmState

/-- One call of the budget-accounting interface, for stating properties of
call sequences. -/
inductive BudgetOp where
  | consumePrivacyBudget (f : ℚ)
  | reset

/-- Applies one `BudgetOp` to the state: a failing `ConsumePrivacyBudget`
leaves the object unchanged (the C++ method early-returns the error). -/
def BudgetOp.apply (op : BudgetOp) (s : AlgorithmState) : AlgorithmState :=
  match op with
  | .consumePrivacyBudget f => (s.ConsumePrivacyBudget f).2
  | .reset => s.Reset

/-- The state after a finite sequence of `ConsumePrivacyBudget`/`Reset` calls,
applied in order. -/
def runBudgetOps (ops : List BudgetOp) (s : AlgorithmState) : AlgorithmState :=
  ops.foldl (fun s op => op.apply s) s

/-- The argument pair that the base class passes to the subtype's
pure-virtual hook
`GenerateResult(double privacy_budget, double noise_interval_level)`.
The hook has no body in `algorithm.h`, so `PartialResult` is embedded up to
the hook invocation: a successful call returns these arguments. -/
structure GenerateResultCall where
  privacy_budget : ℚ
  noise_interval_level : ℚ
deriving DecidableEq

namespace AlgorithmState

/-- C++ `base::StatusOr<Output> PartialResult(double privacy_budget)`:
consumes the requested fraction (propagating the error via
`ASSIGN_OR_RETURN`) and then calls
`GenerateResult(consumed_budget_fraction, kDefaultConfidenceLevel)`. -/
def PartialResult1 (s : AlgorithmState) (privacy_budget : ℚ) :
    Except Err GenerateResultCall × AlgorithmState :=
  match s.ConsumePrivacyBudget privacy_budget with
  | (.error e, s') => (.error e, s')
  | (.ok consumed_budget_fraction, s') =>
      (.ok ⟨consumed_budget_fraction, kDefaultConfidenceLevel⟩, s')

/-- C++ `base::StatusOr<Output> PartialResult(double privacy_budget, double
noise_interval_level)`: as above with a caller-chosen confidence level. -/
def PartialResult2 (s : AlgorithmState) (privacy_budget noise_interval_level : ℚ) :
    Except Err GenerateResultCall × AlgorithmState :=
  match s.ConsumePrivacyBudget privacy_budget with
  | (.error e, s') => (.error e, s')
  | (.ok consumed_budget_fraction, s') =>
      (.ok ⟨consumed_budget_fraction, noise_interval_level⟩, s')

/-- C++ `base::StatusOr<Output> PartialResult()`: delegates to the one-argument
form at `RemainingPrivacyBudget()`. -/
def PartialResult0 (s : AlgorithmState) : Except Err GenerateResultCall × AlgorithmState :=
  s.PartialResult1 s.RemainingPrivacyBudget

end AlgorithmState

/-- The whole state of a concrete `Algorithm<T>` instance: the base-class
fields plus the subtype's own accumulated state (of some type `σ`, owned
exclusively by the subtype). -/
structure FullState (σ : Type) where
  base : AlgorithmState
  state : σ

namespace FullState

variable {T σ : Type}

/-- C++ `virtual void AddEntry(const T& t)`: the pure-virtual ingestion hook,
passed in as a function `AddEntry : T → σ → σ` on the subtype state; it has
no direct effect on the base-class fields. -/
def addOne (AddEntry : T → σ → σ) (t : T) (s : FullState σ) : FullState σ :=
  { s with state := AddEntry t s.state }

/-- C++ `void AddEntries(Iterator begin, Iterator end)`: calls `AddEntry` on
each element of the range in order. -/
def AddEntries (AddEntry : T → σ → σ) (input : List T) (s : FullState σ) :
    FullState σ :=
  input.foldl (fun s t => addOne AddEntry t s) s

/-- C++ `void Reset()`: restores the full privacy budget and calls the
subtype's `ResetState()` hook. -/
def Reset (ResetState : σ → σ) (s : FullState σ) : FullState σ :=
  { base := s.base.Reset, state := ResetState s.state }

/-- The zero-argument `PartialResult()` on the full state: only the
base-class budget fields take part (the subtype state is read by the
`GenerateResult` hook, which is abstracted as the returned call). -/
def PartialResult (s : FullState σ) : Except Err GenerateResultCall × FullState σ :=
  let r := s.base.PartialResult0
  (r.1, { s with base := r.2 })

/-- C++ `base::StatusOr<Output> Result(Iterator begin, Iterator end)`:
`Reset(); AddEntries(begin, end); return PartialResult();`. -/
def Result (AddEntry : T → σ → σ) (ResetState : σ → σ) (input : List T)
    (s : FullState σ) : Except Err GenerateResultCall × FullState σ :=
  ((s.Reset ResetState).AddEntries AddEntry input).PartialResult

end FullState

/-! ## The builder (`AlgorithmBuilder<T, Algorithm, Builder>`) -/

/-- A C++ `double` as the builder's validation logic sees it: a finite
(rational-valued) number or one of the IEEE special values. Budget
arithmetic above only ever meets finite values, so plain `ℚ` is used there;
the builder must reject infinities, hence this type. -/
inductive Dbl where
  | fin (q : ℚ)
  | posInf
  | negInf
  | nan
deriving DecidableEq

/-- Modelled from the spec: `DefaultEpsilon()` (declared in
`algorithms/util.h`, which is not under `src/`) supplies the
"library-defined default epsilon" substituted when epsilon is unset; it is a
fixed, finite, strictly positive value (the library uses ln 3), modelled by a
positive rational approximation of ln 3. -/
def DefaultEpsilon : Dbl := .fin (mkRat 10986 10000)

/-- Modelled from the spec: `ValidateIsFiniteAndPositive(value, name)` from
`algorithms/util.h` (not under `src/`); per the spec it is the pure helper
`validate_finite_and_positive`: it fails with `InvalidArgument` unless the
value is set, finite and strictly positive. -/
def ValidateIsFiniteAndPositive (value : Option Dbl) (name : String) :
    Except Err Unit :=
  match value with
  | none => .error (.invalidArgument (name ++ " must be set."))
  | some .nan => .error (.invalidArgument (name ++ " must be a valid numeric value."))
  | some .posInf => .error (.invalidArgument (name ++ " must be finite and positive."))
  | some .negInf => .error (.invalidArgument (name ++ " must be finite and positive."))
  | some (.fin q) =>
      if 0 < q then .ok ()
      else .error (.invalidArgument (name ++ " must be finite and positive."))

/-- Modelled from the spec: `ValidateIsInInclusiveInterval(value, lo, hi,
name)` from `algorithms/util.h` (not under `src/`); per the spec it is the
pure helper `validate_in_inclusive_range`: it fails with `InvalidArgument`
unless the value lies in the closed interval `[lo, hi]`. -/
def ValidateIsInInclusiveInterval (value : Dbl) (lo hi : ℚ) (name : String) :
    Except Err Unit :=
  match value with
  | .fin q =>
      if lo ≤ q ∧ q ≤ hi then .ok ()
      else .error (.invalidArgument (name ++ " must be in the inclusive interval."))
  | _ => .error (.invalidArgument (name ++ " must be in the inclusive interval."))

/-- Modelled from the spec: `ValidateIsPositive(value, name)` from
`algorithms/util.h` (not under `src/`); per the spec it is the pure helper
`validate_positive`: it fails with `InvalidArgument` unless the value is
strictly positive. -/
def ValidateIsPositive (value : Int) (name : String) : Except Err Unit :=
  if 0 < value then .ok ()
  else .error (.invalidArgument (name ++ " must be positive."))

/-- The label `Build()` passes for the epsilon validation. -/
def epsilonLabel : String := "Epsilon"

/-- The label `Build()` passes for the delta validation. -/
def deltaLabel : String := "Delta"

/-- The label `Build()` passes when validating `l0_sensitivity_`. -/
def l0SensitivityLabel : String :=
  "Maximum number of partitions that can be contributed to (i.e., " ++
    "L0 sensitivity)"

/-- The label `Build()` passes when validating
`max_contributions_per_partition_`. -/
def maxContributionsLabel : String :=
  "Maximum number of contributions per partition"

/-- Modelled from the spec: the result of `NumericalMechanismBuilder::Build`
(from `algorithms/numerical-mechanisms.h`, not under `src/`). The core never
inspects mechanism internals, so a built mechanism is modelled as the record
of the settings it was built from. -/
structure NumericalMechanism where
  epsilon : Option Dbl
  delta : Option Dbl
  l0_sensitivity : Option Int
  l_inf_sensitivity : Option Int
deriving DecidableEq

/-- Modelled from the spec: the `NumericalMechanismBuilder` boundary (from
`algorithms/numerical-mechanisms.h`, not under `src/`): a configurable,
cloneable builder with `SetEpsilon`, `SetDelta`, `SetL0Sensitivity`,
`SetLInfSensitivity`, `Clone` and `Build`. It is modelled as the record of
settings applied so far (a default-constructed `LaplaceMechanism::Builder`
has none). -/
structure NumericalMechanismBuilder where
  epsilon : Option Dbl := none
  delta : Option Dbl := none
  l0_sensitivity : Option Int := none
  l_inf_sensitivity : Option Int := none
deriving DecidableEq

instance : Inhabited NumericalMechanismBuilder := ⟨{}⟩

namespace NumericalMechanismBuilder

/-- Modelled from the spec: `Clone()` produces a fresh, independently owned
copy of the builder; on the settings record this is the value itself. -/
def Clone (b : NumericalMechanismBuilder) : NumericalMechanismBuilder := b

/-- Modelled from the spec: fluent `SetEpsilon`. -/
def SetEpsilon (b : NumericalMechanismBuilder) (v : Dbl) : NumericalMechanismBuilder :=
  { b with epsilon := some v }

/-- Modelled from the spec: fluent `SetDelta`. -/
def SetDelta (b : NumericalMechanismBuilder) (v : Dbl) : NumericalMechanismBuilder :=
  { b with delta := some v }

/-- Modelled from the spec: fluent `SetL0Sensitivity`. -/
def SetL0Sensitivity (b : NumericalMechanismBuilder) (v : Int) : NumericalMechanismBuilder :=
  { b with l0_sensitivity := some v }

/-- Modelled from the spec: fluent `SetLInfSensitivity`. -/
def SetLInfSensitivity (b : NumericalMechanismBuilder) (v : Int) : NumericalMechanismBuilder :=
  { b with l_inf_sensitivity := some v }

/-- Modelled from the spec: `Build()` produces the mechanism from the
settings applied to the builder (its internal validation is outside this
core's boundary). -/
def Build (b : NumericalMechanismBuilder) : Except Err NumericalMechanism :=
  .ok ⟨b.epsilon, b.delta, b.l0_sensitivity, b.l_inf_sensitivity⟩

end NumericalMechanismBuilder

/-- The fields of `AlgorithmBuilder<T, Algorithm, Builder>`: four optional
parameters and the owned mechanism builder (default-constructed
`LaplaceMechanism::Builder`). -/
structure AlgorithmBuilder where
  epsilon_ : Option Dbl := none
  delta_ : Option Dbl := none
  l0_sensitivity_ : Option Int := none
  max_contributions_per_partition_ : Option Int := none
  mechanism_builder_ : NumericalMechanismBuilder := {}
deriving DecidableEq

instance : Inhabited AlgorithmBuilder := ⟨{}⟩

namespace AlgorithmBuilder

/-- Fluent setter `SetEpsilon`. -/
def SetEpsilon (b : AlgorithmBuilder) (epsilon : Dbl) : AlgorithmBuilder :=
  { b with epsilon_ := some epsilon }

/-- Fluent setter `SetDelta`. -/
def SetDelta (b : AlgorithmBuilder) (delta : Dbl) : AlgorithmBuilder :=
  { b with delta_ := some delta }

/-- Fluent setter `SetMaxPartitionsContributed`. -/
def SetMaxPartitionsContributed (b : AlgorithmBuilder) (max_partitions : Int) :
    AlgorithmBuilder :=
  { b with l0_sensitivity_ := some max_partitions }

/-- Fluent setter `SetMaxContributionsPerPartition`. -/
def SetMaxContributionsPerPartition (b : AlgorithmBuilder) (max_contributions : Int) :
    AlgorithmBuilder :=
  { b with max_contributions_per_partition_ := some max_contributions }

/-- Protected accessor `GetEpsilon()`. -/
def GetEpsilon (b : AlgorithmBuilder) : Option Dbl := b.epsilon_

/-- Protected accessor `GetDelta()`. -/
def GetDelta (b : AlgorithmBuilder) : Option Dbl := b.delta_

/-- The validation sequence of `Build()` after the default-epsilon
substitution: epsilon must be finite and positive; delta, if set, must lie
in [0, 1]; the two contribution bounds, if set, must be positive. -/
def validations (b : AlgorithmBuilder) : Except Err Unit := do
  ValidateIsFiniteAndPositive b.epsilon_ epsilonLabel
  match b.delta_ with
  | some d => ValidateIsInInclusiveInterval d 0 1 deltaLabel
  | none => pure ()
  match b.l0_sensitivity_ with
  | some v => ValidateIsPositive v l0SensitivityLabel
  | none => pure ()
  match b.max_contributions_per_partition_ with
  | some v => ValidateIsPositive v maxContributionsLabel
  | none => pure ()

/-- What a call of `Build()` produces: whether control reached the
pure-virtual `BuildAlgorithm()` factory hook (`.ok ()`) or a validation
failed (`.error e`); whether the `LOG(WARNING)` about the default epsilon
fired; and the builder state after the call (`Build` mutates `epsilon_`
when it was unset). -/
structure BuildResult where
  result : Except Err Unit
  warned_default_epsilon : Bool
  post : AlgorithmBuilder
deriving DecidableEq

/-- C++ `base::StatusOr<std::unique_ptr<Algorithm>> Build()`: if `epsilon_` is
unset, assign it the default epsilon and log a warning; then run the
validations; on success delegate to the `BuildAlgorithm()` hook. -/
def Build (b : AlgorithmBuilder) : BuildResult :=
  let warned := b.epsilon_.isNone
  let b := if b.epsilon_.isNone then { b with epsilon_ := some DefaultEpsilon } else b
  { result := b.validations, warned_default_epsilon := warned, post := b }

/-- C++ `base::StatusOr<std::unique_ptr<NumericalMechanism>>
UpdateAndBuildMechanism()`: clones the owned mechanism builder, applies
epsilon and delta only when set, sets the L0 sensitivity to
`l0_sensitivity_.value_or(1)` and the L-infinity sensitivity to
`max_contributions_per_partition_.value_or(1)`, and builds. -/
def UpdateAndBuildMechanism (b : AlgorithmBuilder) :
    Except Err NumericalMechanism :=
  let clone := b.mechanism_builder_.Clone
  let clone := match b.epsilon_ with
    | some e => clone.SetEpsilon e
    | none => clone
  let clone := match b.delta_ with
    | some d => clone.SetDelta d
    | none => clone
  ((clone.SetL0Sensitivity (b.l0_sensitivity_.getD 1)).SetLInfSensitivity
      (b.max_contributions_per_partition_.getD 1)).Build

end AlgorithmBuilder

/-! ## Helper lemmas -/

theorem stdMax_zero_of_nonneg {x : ℚ} (h : 0 ≤ x) : stdMax 0 x = x := by
  unfold stdMax
  rcases lt_or_eq_of_le h with h' | h'
  · rw [if_pos h']
  · rw [if_neg (by rw [← h']; exact lt_irrefl 0)]
    exact h'.symm ▸ rfl

theorem le_stdMax_left (a b : ℚ) : a ≤ stdMax a b := by
  rw [stdMax_eq_max]; exact le_max_left a b

theorem stdMax_le {a b c : ℚ} (ha : a ≤ c) (hb : b ≤ c) : stdMax a b ≤ c := by
  rw [stdMax_eq_max]; exact max_le ha hb

/-- A failing `ConsumePrivacyBudget` leaves the state unchanged, and a call
never changes `epsilon_` or `delta_`. -/
theorem ConsumePrivacyBudget_frame (s : AlgorithmState) (f : ℚ) :
    (s.ConsumePrivacyBudget f).2.epsilon_ = s.epsilon_ ∧
    (s.ConsumePrivacyBudget f).2.delta_ = s.delta_ := by
  unfold AlgorithmState.ConsumePrivacyBudget
  split_ifs <;> exact ⟨rfl, rfl⟩

/-- A `ConsumePrivacyBudget` call that returns an error has early-returned
before any assignment, so the state it leaves is the state it was given. -/
theorem ConsumePrivacyBudget_error_state (s : AlgorithmState) (f : ℚ) (e : Err)
    (s2 : AlgorithmState) (h : s.ConsumePrivacyBudget f = (.error e, s2)) :
    s2 = s := by
  unfold AlgorithmState.ConsumePrivacyBudget at h
  split_ifs at h
  · exact (congrArg Prod.snd h).symm
  · exact (congrArg Prod.snd h).symm
  · exact absurd (congrArg Prod.fst h) (by simp)

/-- One budget call keeps the remaining fraction inside `[0, 1]`. -/
theorem BudgetOp.apply_unit_interval (op : BudgetOp) (s : AlgorithmState)
    (h : 0 ≤ s.remaining_privacy_budget_fraction_ ∧
      s.remaining_privacy_budget_fraction_ ≤ 1) :
    0 ≤ (op.apply s).remaining_privacy_budget_fraction_ ∧
      (op.apply s).remaining_privacy_budget_fraction_ ≤ 1 := by
  cases op with
  | reset =>
      simp only [BudgetOp.apply, AlgorithmState.Reset, kFullPrivacyBudget]
      norm_num
  | consumePrivacyBudget f =>
      simp only [BudgetOp.apply, AlgorithmState.ConsumePrivacyBudget]
      split_ifs with h1 h2
      · exact h
      · exact h
      · refine ⟨le_stdMax_left 0 _, stdMax_le (by norm_num) ?_⟩
        have hf : 0 ≤ f := le_of_not_lt h1
        linarith [h.2]

/-- Budget calls never change `epsilon_` or `delta_`. -/
theorem BudgetOp.apply_frame (op : BudgetOp) (s : AlgorithmState) :
    (op.apply s).epsilon_ = s.epsilon_ ∧ (op.apply s).delta_ = s.delta_ := by
  cases op with
  | reset => exact ⟨rfl, rfl⟩
  | consumePrivacyBudget f => exact ConsumePrivacyBudget_frame s f

/-- Any property preserved by every single budget call is preserved by any
finite sequence of calls. -/
theorem runBudgetOps_inv (P : AlgorithmState → Prop)
    (step : ∀ (op : BudgetOp) (s : AlgorithmState), P s → P (op.apply s)) :
    ∀ (ops : List BudgetOp) (s : AlgorithmState), P s → P (runBudgetOps ops s) := by
  intro ops
  induction ops with
  | nil => intro s h; exact h
  | cons op ops ih =>
      intro s h
      exact ih (op.apply s) (step op s h)

/-! ## Claim theorems -/

/-- C1: for every algorithm instance and every finite sequence of
`ConsumePrivacyBudget`/`Reset` calls starting from construction, the
remaining privacy budget fraction stays within `[0, 1]` after each call
(instantiate `ops` with each prefix of the call sequence). -/
theorem budget_fraction_in_unit_interval (epsilon delta : ℚ) (ops : List BudgetOp) :
    0 ≤ (runBudgetOps ops (AlgorithmState.mk2 epsilon delta)).remaining_privacy_budget_fraction_ ∧
    (runBudgetOps ops (AlgorithmState.mk2 epsilon delta)).remaining_privacy_budget_fraction_ ≤ 1 := by
  refine runBudgetOps_inv _ BudgetOp.apply_unit_interval ops _ ?_
  simp only [AlgorithmState.mk2, kFullPrivacyBudget]
  norm_num

/-- C2: `ConsumePrivacyBudget(f)` fails with an `InvalidArgument` error when
`f < 0` or `f` exceeds the remaining fraction, and every such failure leaves
the remaining budget fraction (indeed the whole object) unchanged. -/
theorem consume_invalid_fails_unchanged (s : AlgorithmState) (f : ℚ)
    (h : f < 0 ∨ s.RemainingPrivacyBudget < f) :
    (∃ msg, (s.ConsumePrivacyBudget f).1 = .error (.invalidArgument msg)) ∧
    (s.ConsumePrivacyBudget f).2 = s := by
  unfold AlgorithmState.ConsumePrivacyBudget
  by_cases h1 : f < 0
  · rw [if_pos h1]
    exact ⟨⟨_, rfl⟩, rfl⟩
  · have h2 : s.remaining_privacy_budget_fraction_ < f := by
      rcases h with h | h
      · exact absurd h h1
      · exact h
    rw [if_neg h1, if_pos h2]
    exact ⟨⟨_, rfl⟩, rfl⟩

/-- C2 witness: a concrete negative request and a concrete over-budget
request both fail and leave the state unchanged. -/
theorem consume_invalid_fails_unchanged_witness :
    ((∃ msg, ((AlgorithmState.mk1 1).ConsumePrivacyBudget (-1)).1 =
        .error (.invalidArgument msg)) ∧
      ((AlgorithmState.mk1 1).ConsumePrivacyBudget (-1)).2 = AlgorithmState.mk1 1) ∧
    ((∃ msg, ((AlgorithmState.mk1 1).ConsumePrivacyBudget 2).1 =
        .error (.invalidArgument msg)) ∧
      ((AlgorithmState.mk1 1).ConsumePrivacyBudget 2).2 = AlgorithmState.mk1 1) :=
  ⟨consume_invalid_fails_unchanged (AlgorithmState.mk1 1) (-1) (Or.inl (by norm_num)),
   consume_invalid_fails_unchanged (AlgorithmState.mk1 1) 2 (Or.inr (by
      simp only [AlgorithmState.mk1, AlgorithmState.mk2,
        AlgorithmState.RemainingPrivacyBudget, kFullPrivacyBudget]
      norm_num))⟩

/-- C3: `ConsumePrivacyBudget(f)` with `0 ≤ f ≤ remaining` succeeds,
decreases the remaining fraction by exactly `f`, and returns `f` (computed
as the old minus the new remaining fraction, floored at 0). -/
theorem consume_valid_decreases_exactly (s : AlgorithmState) (f : ℚ)
    (h0 : 0 ≤ f) (h1 : f ≤ s.RemainingPrivacyBudget) :
    (s.ConsumePrivacyBudget f).1 = .ok f ∧
    (s.ConsumePrivacyBudget f).2.RemainingPrivacyBudget =
      s.RemainingPrivacyBudget - f := by
  unfold AlgorithmState.RemainingPrivacyBudget at *
  unfold AlgorithmState.ConsumePrivacyBudget
  rw [if_neg (not_lt.mpr h0), if_neg (not_lt.mpr h1)]
  have hnn : (0 : ℚ) ≤ s.remaining_privacy_budget_fraction_ - f := by linarith
  simp only [stdMax_zero_of_nonneg hnn, sub_sub_cancel]
  exact ⟨trivial, trivial⟩

/-- C3 witness: consuming one half of a full budget returns one half and
leaves one half remaining. -/
theorem consume_valid_decreases_exactly_witness :
    ((AlgorithmState.mk1 1).ConsumePrivacyBudget (mkRat 1 2)).1 = .ok (mkRat 1 2) ∧
    ((AlgorithmState.mk1 1).ConsumePrivacyBudget (mkRat 1 2)).2.RemainingPrivacyBudget =
      (AlgorithmState.mk1 1).RemainingPrivacyBudget - mkRat 1 2 :=
  consume_valid_decreases_exactly (AlgorithmState.mk1 1) (mkRat 1 2)
    (by norm_num)
    (by
      simp only [AlgorithmState.mk1, AlgorithmState.mk2,
        AlgorithmState.RemainingPrivacyBudget, kFullPrivacyBudget]
      norm_num)

/-- C4 counterexample: from a freshly constructed instance, a first
zero-argument `PartialResult()` succeeds and exhausts the budget, and the
second zero-argument `PartialResult()` — with no intervening `AddEntry` or
`Reset` — does NOT fail: it requests the remaining fraction 0, which
`ConsumePrivacyBudget` grants, and reaches the `GenerateResult` hook with
consumed fraction 0. -/
theorem partial_result_exhausted_counterexample :
    ((AlgorithmState.mk1 1).PartialResult0).1 =
      .ok ⟨1, kDefaultConfidenceLevel⟩ ∧
    ((AlgorithmState.mk1 1).PartialResult0).2.RemainingPrivacyBudget = 0 ∧
    (((AlgorithmState.mk1 1).PartialResult0).2.PartialResult0).1 =
      .ok ⟨0, kDefaultConfidenceLevel⟩ := by
  norm_num [AlgorithmState.PartialResult0, AlgorithmState.PartialResult1,
    AlgorithmState.ConsumePrivacyBudget, AlgorithmState.RemainingPrivacyBudget,
    AlgorithmState.mk1, AlgorithmState.mk2, kFullPrivacyBudget, stdMax]

/-- C4 amended: on an exhausted instance (remaining fraction 0), every
`PartialResult(f)` with a strictly positive requested fraction fails with
the budget-exceeded `InvalidArgument` error and leaves the state unchanged;
the zero-argument `PartialResult()`, however, requests the remaining
fraction 0, which is granted, so it succeeds and invokes the
`GenerateResult` hook with consumed fraction 0 (and the state unchanged)
rather than failing. -/
theorem partial_result_exhausted_amended (s : AlgorithmState)
    (h : s.RemainingPrivacyBudget = 0) :
    (∀ f, 0 < f →
      (∃ msg, (s.PartialResult1 f).1 = .error (.invalidArgument msg)) ∧
      (s.PartialResult1 f).2 = s) ∧
    (s.PartialResult0).1 = .ok ⟨0, kDefaultConfidenceLevel⟩ ∧
    (s.PartialResult0).2 = s := by
  unfold AlgorithmState.RemainingPrivacyBudget at h
  refine ⟨?_, ?_, ?_⟩
  · intro f hf
    unfold AlgorithmState.PartialResult1 AlgorithmState.ConsumePrivacyBudget
    rw [if_neg (not_lt.mpr (le_of_lt hf)), if_pos (by rw [h]; exact hf)]
    exact ⟨⟨_, rfl⟩, rfl⟩
  · unfold AlgorithmState.PartialResult0 AlgorithmState.PartialResult1
      AlgorithmState.RemainingPrivacyBudget AlgorithmState.ConsumePrivacyBudget
    rw [if_neg (not_lt.mpr (le_of_eq h.symm)), if_neg (lt_irrefl _)]
    simp only [h, sub_zero, stdMax_zero_of_nonneg (le_refl (0 : ℚ)), sub_self]
  · unfold AlgorithmState.PartialResult0 AlgorithmState.PartialResult1
      AlgorithmState.RemainingPrivacyBudget AlgorithmState.ConsumePrivacyBudget
    rw [if_neg (not_lt.mpr (le_of_eq h.symm)), if_neg (lt_irrefl _)]
    simp only [h, sub_zero, stdMax_zero_of_nonneg (le_refl (0 : ℚ))]
    cases s with
    | mk e d r =>
        simp only at h
        simp [h]

/-- C4 witness: the amended statement at the concrete exhausted state with
epsilon 1, delta 0, remaining fraction 0, and requested fraction 1. -/
theorem partial_result_exhausted_amended_witness :
    (∃ msg, ((⟨1, 0, 0⟩ : AlgorithmState).PartialResult1 1).1 =
      .error (.invalidArgument msg)) ∧
    ((⟨1, 0, 0⟩ : AlgorithmState).PartialResult0).1 =
      .ok ⟨0, kDefaultConfidenceLevel⟩ ∧
    ((⟨1, 0, 0⟩ : AlgorithmState).PartialResult0).2 = (⟨1, 0, 0⟩ : AlgorithmState) :=
  ⟨((partial_result_exhausted_amended ⟨1, 0, 0⟩ rfl).1 1 one_pos).1,
   (partial_result_exhausted_amended ⟨1, 0, 0⟩ rfl).2⟩

/-- C5: the zero-argument `PartialResult()` is exactly
`PartialResult(RemainingPrivacyBudget())`; a successful zero-argument call
leaves remaining fraction 0; the one-argument form propagates
`ConsumePrivacyBudget`'s error (leaving the state unchanged), and on
success invokes the `GenerateResult` hook with the actually consumed
fraction and the default confidence level 0.95. -/
theorem partial_result_consumes_budget (s : AlgorithmState) :
    s.PartialResult0 = s.PartialResult1 s.RemainingPrivacyBudget ∧
    (∀ call s', s.PartialResult0 = (.ok call, s') →
      s'.RemainingPrivacyBudget = 0) ∧
    (∀ f e, (s.ConsumePrivacyBudget f).1 = .error e →
      s.PartialResult1 f = (.error e, s)) ∧
    (∀ f c, (s.ConsumePrivacyBudget f).1 = .ok c →
      s.PartialResult1 f =
        (.ok ⟨c, kDefaultConfidenceLevel⟩, (s.ConsumePrivacyBudget f).2)) := by
  refine ⟨rfl, ?_, ?_, ?_⟩
  · intro call s' hok
    unfold AlgorithmState.PartialResult0 AlgorithmState.PartialResult1
      AlgorithmState.RemainingPrivacyBudget AlgorithmState.ConsumePrivacyBudget at hok
    by_cases h1 : s.remaining_privacy_budget_fraction_ < 0
    · rw [if_pos h1] at hok
      exact absurd (congrArg Prod.fst hok) (by simp)
    · rw [if_neg h1, if_neg (lt_irrefl _)] at hok
      simp only [sub_self, stdMax_zero_of_nonneg (le_refl (0 : ℚ))] at hok
      have h2 : ({ s with remaining_privacy_budget_fraction_ := 0 } : AlgorithmState) = s' :=
        congrArg Prod.snd hok
      rw [← h2]
      rfl
  · intro f e herr
    unfold AlgorithmState.PartialResult1
    rcases hc : s.ConsumePrivacyBudget f with ⟨res, s2⟩
    have h2 := (congrArg Prod.fst hc).symm.trans herr
    cases res with
    | error e2 =>
        cases h2
        rw [ConsumePrivacyBudget_error_state s f e s2 hc]
    | ok c2 => cases h2
  · intro f c hok
    unfold AlgorithmState.PartialResult1
    rcases hc : s.ConsumePrivacyBudget f with ⟨res, s2⟩
    cases res with
    | error e2 => cases hok.symm.trans (congrArg Prod.fst hc)
    | ok c2 =>
        have : c2 = c := by
          have h2 := hok.symm.trans (congrArg Prod.fst hc)
          exact (Except.ok.inj h2).symm
        rw [this]

/-- C5 witness: at a fresh instance with epsilon 1, the identity between
the two forms, error propagation at requested fraction 2, and the hook
invocation at requested fraction one half. -/
theorem partial_result_consumes_budget_witness :
    (AlgorithmState.mk1 1).PartialResult0 =
      (AlgorithmState.mk1 1).PartialResult1
        ((AlgorithmState.mk1 1).RemainingPrivacyBudget) ∧
    ((AlgorithmState.mk1 1).PartialResult0).2.RemainingPrivacyBudget = 0 ∧
    (AlgorithmState.mk1 1).PartialResult1 (mkRat 1 2) =
      (.ok ⟨mkRat 1 2, kDefaultConfidenceLevel⟩,
        ((AlgorithmState.mk1 1).ConsumePrivacyBudget (mkRat 1 2)).2) := by
  refine ⟨(partial_result_consumes_budget (AlgorithmState.mk1 1)).1,
    (partial_result_consumes_budget (AlgorithmState.mk1 1)).2.1
      ⟨1, kDefaultConfidenceLevel⟩ ((AlgorithmState.mk1 1).PartialResult0).2 ?_,
    (partial_result_consumes_budget (AlgorithmState.mk1 1)).2.2.2
      (mkRat 1 2) (mkRat 1 2) ?_⟩
  · norm_num [AlgorithmState.PartialResult0, AlgorithmState.PartialResult1,
      AlgorithmState.ConsumePrivacyBudget, AlgorithmState.RemainingPrivacyBudget,
      AlgorithmState.mk1, AlgorithmState.mk2, kFullPrivacyBudget, stdMax]
  · norm_num [AlgorithmState.ConsumePrivacyBudget, AlgorithmState.mk1,
      AlgorithmState.mk2, kFullPrivacyBudget, stdMax]

/-- C6: `Result(begin, end)` is exactly the composition
`Reset(); AddEntries(begin, end); PartialResult()`: same output and same
final state, for every subtype (any `AddEntry`/`ResetState` hooks), input
sequence and starting state. -/
theorem result_is_reset_add_entries_partial_result {T σ : Type}
    (AddEntry : T → σ → σ) (ResetState : σ → σ) (input : List T)
    (s : FullState σ) :
    FullState.Result AddEntry ResetState input s =
      ((s.Reset ResetState).AddEntries AddEntry input).PartialResult := rfl

/-- C10: the single-argument constructor `Algorithm(epsilon)` delegates to
`Algorithm(epsilon, 0)`, so `GetDelta()` returns 0, and it still returns 0
after any sequence of budget calls on the instance. -/
theorem single_arg_constructor_delta_zero (epsilon : ℚ) :
    (AlgorithmState.mk1 epsilon).GetDelta = 0 ∧
    ∀ ops : List BudgetOp,
      (runBudgetOps ops (AlgorithmState.mk1 epsilon)).GetDelta = 0 := by
  constructor
  · rfl
  · intro ops
    exact runBudgetOps_inv (fun s => s.GetDelta = 0)
      (fun op s h => by
        show (op.apply s).GetDelta = 0
        unfold AlgorithmState.GetDelta
        rw [(BudgetOp.apply_frame op s).2]
        exact h)
      ops _ rfl

/-- C7: `Build()` fails with an `InvalidArgument` error when epsilon has
been set to 0, to a negative value, or to positive infinity; when epsilon
was never set, the warning fires, the library default epsilon is
substituted into the builder, and the epsilon validation passes on the
substituted value (so `Build()` cannot fail on epsilon). -/
theorem build_epsilon_validation (b : AlgorithmBuilder) :
    (∀ q : ℚ, q ≤ 0 → b.epsilon_ = some (.fin q) →
      ∃ msg, b.Build.result = .error (.invalidArgument msg)) ∧
    (b.epsilon_ = some .posInf →
      ∃ msg, b.Build.result = .error (.invalidArgument msg)) ∧
    (b.epsilon_ = none →
      b.Build.warned_default_epsilon = true ∧
      b.Build.post.epsilon_ = some DefaultEpsilon ∧
      ValidateIsFiniteAndPositive b.Build.post.epsilon_ epsilonLabel = .ok ()) := by
  refine ⟨?_, ?_, ?_⟩
  · intro q hq he
    unfold AlgorithmBuilder.Build AlgorithmBuilder.validations
    simp only [he, Option.isNone_some, Bool.false_eq_true, if_false,
      ValidateIsFiniteAndPositive, if_neg (not_lt.mpr hq)]
    exact ⟨_, rfl⟩
  · intro he
    unfold AlgorithmBuilder.Build AlgorithmBuilder.validations
    simp only [he, Option.isNone_some, Bool.false_eq_true, if_false,
      ValidateIsFiniteAndPositive]
    exact ⟨_, rfl⟩
  · intro he
    unfold AlgorithmBuilder.Build
    simp only [he, Option.isNone_none, if_true]
    refine ⟨trivial, trivial, ?_⟩
    decide

/-- C7 witness: concrete builders with epsilon 0, -1 and +infinity fail
with `InvalidArgument`; the default-constructed builder (epsilon unset)
warns, receives the default epsilon, and passes the epsilon validation. -/
theorem build_epsilon_validation_witness :
    (∃ msg, ({ epsilon_ := some (.fin 0) } : AlgorithmBuilder).Build.result =
      .error (.invalidArgument msg)) ∧
    (∃ msg, ({ epsilon_ := some (.fin (-1)) } : AlgorithmBuilder).Build.result =
      .error (.invalidArgument msg)) ∧
    (∃ msg, ({ epsilon_ := some .posInf } : AlgorithmBuilder).Build.result =
      .error (.invalidArgument msg)) ∧
    (({} : AlgorithmBuilder).Build.warned_default_epsilon = true ∧
      ({} : AlgorithmBuilder).Build.post.epsilon_ = some DefaultEpsilon ∧
      ValidateIsFiniteAndPositive ({} : AlgorithmBuilder).Build.post.epsilon_
        epsilonLabel = .ok ()) :=
  ⟨(build_epsilon_validation _).1 0 le_rfl rfl,
   (build_epsilon_validation _).1 (-1) (by norm_num) rfl,
   (build_epsilon_validation _).2.1 rfl,
   (build_epsilon_validation _).2.2 rfl⟩

/-- C8: `UpdateAndBuildMechanism()` builds from a clone of the owned
mechanism builder with epsilon and delta applied only when set, the L0
sensitivity set to `max_partitions_contributed` when set and 1 otherwise,
and the L-infinity sensitivity set to `max_contributions_per_partition`
when set and 1 otherwise. -/
theorem update_and_build_mechanism_settings (b : AlgorithmBuilder) :
    b.mechanism_builder_.Clone = b.mechanism_builder_ ∧
    b.UpdateAndBuildMechanism = .ok {
      epsilon := match b.epsilon_ with
        | some e => some e
        | none => b.mechanism_builder_.epsilon,
      delta := match b.delta_ with
        | some d => some d
        | none => b.mechanism_builder_.delta,
      l0_sensitivity := some (b.l0_sensitivity_.getD 1),
      l_inf_sensitivity := some (b.max_contributions_per_partition_.getD 1) } := by
  refine ⟨rfl, ?_⟩
  unfold AlgorithmBuilder.UpdateAndBuildMechanism
    NumericalMechanismBuilder.Clone NumericalMechanismBuilder.SetEpsilon
    NumericalMechanismBuilder.SetDelta NumericalMechanismBuilder.SetL0Sensitivity
    NumericalMechanismBuilder.SetLInfSensitivity NumericalMechanismBuilder.Build
  cases b.epsilon_ <;> cases b.delta_ <;> rfl

/-- C9: `Build()` on a builder whose epsilon was never set assigns the
default epsilon into the builder's stored optional and leaves every other
field unchanged; afterwards `GetEpsilon()` observes the default, and any
builder whose epsilon is set is left unchanged by `Build()` with no
warning — so the unset-epsilon warning fires at most once per builder, and
a second `Build()` on the mutated builder warns no more. -/
theorem build_mutates_unset_epsilon (b : AlgorithmBuilder)
    (h : b.epsilon_ = none) :
    b.Build.post = { b with epsilon_ := some DefaultEpsilon } ∧
    b.Build.warned_default_epsilon = true ∧
    b.Build.post.GetEpsilon = some DefaultEpsilon ∧
    (∀ b' : AlgorithmBuilder, b'.epsilon_.isSome →
      b'.Build.post = b' ∧ b'.Build.warned_default_epsilon = false) ∧
    b.Build.post.Build.post = b.Build.post ∧
    b.Build.post.Build.warned_default_epsilon = false := by
  have hset : ∀ b' : AlgorithmBuilder, b'.epsilon_.isSome →
      b'.Build.post = b' ∧ b'.Build.warned_default_epsilon = false := by
    intro b' hb'
    have hn : b'.epsilon_.isNone = false := by
      rcases hs : b'.epsilon_ with _ | v
      · rw [hs] at hb'; cases hb'
      · rfl
    unfold AlgorithmBuilder.Build
    rw [hn]
    exact ⟨rfl, rfl⟩
  have hpost : b.Build.post = { b with epsilon_ := some DefaultEpsilon } := by
    unfold AlgorithmBuilder.Build
    rw [h]
    rfl
  have hw : b.Build.warned_default_epsilon = true := by
    unfold AlgorithmBuilder.Build
    rw [h]
    rfl
  have hsome : b.Build.post.epsilon_.isSome = true := by
    rw [hpost]
    rfl
  refine ⟨hpost, hw, ?_, hset, (hset _ hsome).1, (hset _ hsome).2⟩
  rw [hpost]
  rfl

/-- C9 witness: the default-constructed builder. -/
theorem build_mutates_unset_epsilon_witness :
    ({} : AlgorithmBuilder).Build.post =
      { epsilon_ := some DefaultEpsilon } ∧
    ({} : AlgorithmBuilder).Build.warned_default_epsilon = true ∧
    ({} : AlgorithmBuilder).Build.post.GetEpsilon = some DefaultEpsilon ∧
    ({} : AlgorithmBuilder).Build.post.Build.post =
      ({} : AlgorithmBuilder).Build.post ∧
    ({} : AlgorithmBuilder).Build.post.Build.warned_default_epsilon = false :=
  ⟨(build_mutates_unset_epsilon {} rfl).1,
   (build_mutates_unset_epsilon {} rfl).2.1,
   (build_mutates_unset_epsilon {} rfl).2.2.1,
   (build_mutates_unset_epsilon {} rfl).2.2.2.2.1,
   (build_mutates_unset_epsilon {} rfl).2.2.2.2.2⟩

end differential_privacy
